import Mathlib

/-!
# Verification of the Dino Chrome bot's perception-and-decision loop

Shallow embedding of `src/dino_chrome_bot/main.py`.  Images are modelled as
lists of pixel rows (`Img`), machine floats as exact rationals (`ℚ`), and
Python ints as `ℤ`/`ℕ`.  Calls into external libraries are modelled as
follows:

* numpy 2-D slicing `a[i:j, k:l]` is `slice2`, with Python's slice
  normalisation (negative indices count from the end, out-of-range indices
  are clipped, an inverted range is empty);
* `cv2.threshold(img, t, 255, THRESH_BINARY)` is `cv2_threshold_binary`
  (`dst = 255` iff `src > t`), and the `THRESH_OTSU` variant computes the
  threshold by `otsu_threshold`, an exact-rational rendering of OpenCV's
  `getThreshVal_Otsu_8u` (between-class-variance maximisation; the float
  epsilon guards become exact zero tests);
* `cv2.matchTemplate` + `cv2.minMaxLoc` is an oracle parameter
  `mt : Img → Img → ℚ × (ℕ × ℕ)` returning the best score and its location;
* `time.perf_counter()` readings are explicit rational parameters, one per
  call site, in program order;
* `pyautogui` key events and `time.sleep` are recorded as `Action` values
  in the order the code emits them.

Python's `int(float)` (truncation toward zero) is `pyInt`.
-/

namespace Dino

/-- A grayscale image: a list of pixel rows (8-bit values as naturals).
The numpy arrays in the source are rectangular; all statements hold for
arbitrary row lists. -/
abbrev Img := List (List ℕ)

/-- Python `int(q)` for a real (here rational) `q`: truncation toward zero. -/
def pyInt (q : ℚ) : ℤ := if q < 0 then ⌈q⌉ else ⌊q⌋

/-- Normalise one Python slice index against a length `n`:
negative indices count from the end, and the result is clipped to `[0, n]`. -/
def sliceIdx (n : ℕ) (i : ℤ) : ℕ :=
  if i < 0 then ((n : ℤ) + i).toNat else min i.toNat n

/-- Python/numpy 1-D slice `l[i:j]`. -/
def pySlice (l : List α) (i j : ℤ) : List α :=
  (l.take (sliceIdx l.length j)).drop (sliceIdx l.length i)

/-- numpy 2-D slice `g[r1:r2, c1:c2]`. -/
def slice2 (g : Img) (r1 r2 c1 c2 : ℤ) : Img :=
  (pySlice g r1 r2).map (fun row => pySlice row c1 c2)

/-- Total number of pixels of an image (`ndarray.size`; for the rectangular
arrays produced by slicing a rectangular frame this is rows × cols). -/
def imgSize (g : Img) : ℕ := (g.map List.length).sum

/-- Number of pixels equal to `v` (`(g == v).sum()` in numpy). -/
def countVal (g : Img) (v : ℕ) : ℕ :=
  (g.map (fun row => (row.filter (fun u => u = v)).length)).sum

/-- `cv2.threshold(img, t, 255, cv2.THRESH_BINARY)`: a pixel becomes 255
iff its value is strictly greater than `t`, else 0. -/
def cv2_threshold_binary (t : ℕ) (g : Img) : Img :=
  g.map (List.map (fun v => if t < v then 255 else 0))

/-- One iteration of OpenCV's Otsu scan (`getThreshVal_Otsu_8u`), carried
out in exact rational arithmetic.  State is `(q1, mu1, max_sigma, max_val)`;
`hist i` is the probability mass of gray level `i` and `mu` the global mean. -/
def otsuStep (hist : ℕ → ℚ) (mu : ℚ) (st : ℚ × ℚ × ℚ × ℕ) (i : ℕ) :
    ℚ × ℚ × ℚ × ℕ :=
  let q1 := st.1
  let mu1 := st.2.1
  let max_sigma := st.2.2.1
  let max_val := st.2.2.2
  let p_i := hist i
  let mu1a := mu1 * q1
  let q1a := q1 + p_i
  let q2 := 1 - q1a
  if q1a = 0 ∨ q2 = 0 then (q1a, mu1a, max_sigma, max_val)
  else
    let mu1b := (mu1a + i * p_i) / q1a
    let mu2 := (mu - q1a * mu1b) / q2
    let sigma := q1a * q2 * (mu1b - mu2) * (mu1b - mu2)
    if max_sigma < sigma then (q1a, mu1b, sigma, i) else (q1a, mu1b, max_sigma, max_val)

/-- OpenCV's automatic Otsu threshold of an 8-bit image: the gray level
maximising the between-class variance.  An empty image yields 0 (the
thresholded image is empty then, so the value is irrelevant). -/
def otsu_threshold (g : Img) : ℕ :=
  let n := imgSize g
  if n = 0 then 0
  else
    let hist : ℕ → ℚ := fun i => (countVal g i : ℚ) / (n : ℚ)
    let mu : ℚ := ((List.range 256).map (fun (i : ℕ) => (i : ℚ) * hist i)).sum
    ((List.range 256).foldl (otsuStep hist mu) (0, 0, 0, 0)).2.2.2

/-- The day/night binarisation selector of `_threshold_obstacle_frames`:
fixed threshold 180 by day, Otsu's automatic threshold by night. -/
def binarize (is_day : Bool) (band : Img) : Img :=
  if is_day then cv2_threshold_binary 180 band
  else cv2_threshold_binary (otsu_threshold band) band

/-- `DinoParams` (`main.py` lines 18–47): the configuration bundle. -/
structure DinoParams where
  confidence_threshold : ℚ
  day_threshold : ℚ
  obstacle_min_contrast : ℚ
  obstacle_max_contrast : ℚ
  late_game_time : ℚ
  idle_reset_time : ℚ
  duck_time : ℚ
  post_jump_duck_sleep : ℚ
  init_scale_w : ℚ
  late_scale_w : ℚ
deriving DecidableEq

/-- The default `DinoParams` values of the dataclass. -/
def defaultParams : DinoParams :=
  { confidence_threshold := 4/5
    day_threshold := 1/2
    obstacle_min_contrast := 1/10
    obstacle_max_contrast := 9/10
    late_game_time := 30
    idle_reset_time := 7
    duck_time := 2/5
    post_jump_duck_sleep := 1/50
    init_scale_w := 3/2
    late_scale_w := 4 }

/-- The mutable fields of `DinoBot` used by the control loop:
`skip_initialize` (here `skip_init`), the cached character position and
template size, and the run clock. -/
structure BotState where
  skip_init : Bool
  top_left : ℕ × ℕ
  template_h : ℕ
  template_w : ℕ
  last_button_push : ℚ
  start_time : ℚ
deriving DecidableEq

/-- Keys the bot presses: "space" (jump) and "down" (duck). -/
inductive Key where
  | space
  | down
deriving DecidableEq

/-- Observable side effects of one tick, in emission order:
`pyautogui.press`, `pyautogui.keyDown`, `pyautogui.keyUp`, `time.sleep`. -/
inductive Action where
  | press : Key → Action
  | keyDown : Key → Action
  | keyUp : Key → Action
  | sleep : ℚ → Action
deriving DecidableEq

/-- Perception operations a tick can perform, for the temporal claims:
running the template-matching localizer, classifying the scene,
and evaluating obstacle bands. -/
inductive Event where
  | localize
  | classify
  | evaluate
deriving DecidableEq

/-- Interpolation algorithm passed to `cv2.resize`. -/
inductive Interp where
  | area
  | linear
  | nearest
deriving DecidableEq

/-- Result of `cv2.resize` as far as the claims are concerned: the output
size and the interpolation algorithm used (pixel resampling itself is
OpenCV-internal). -/
structure ResizeSpec where
  new_width : ℕ
  new_height : ℕ
  interpolation : Interp
deriving DecidableEq

/-- `_resize_template` (lines 99–130): `None` stays `None`; otherwise the
template of shape `(h, w)` is resized to
`(max 1 (int (w * screen_width / 1920)), max 1 (int (h * screen_height / 1080)))`
with `cv2.INTER_AREA`.  A template's shape `(h, w)` stands for its numpy
`shape[0], shape[1]`. -/
def _resize_template (screen_width screen_height : ℕ) (template : Option (ℕ × ℕ)) :
    Option ResizeSpec :=
  match template with
  | none => none
  | some t =>
    let scale_w : ℚ := (screen_width : ℚ) / 1920
    let scale_h : ℚ := (screen_height : ℚ) / 1080
    let new_width := (pyInt ((t.2 : ℚ) * scale_w)).toNat
    let new_height := (pyInt ((t.1 : ℚ) * scale_h)).toNat
    some ⟨max 1 new_width, max 1 new_height, Interp.area⟩

/-- The template-loading part of `DinoBot.__init__` (lines 76–94): both
images are loaded (a missing or corrupt image is `none`, as `cv2.imread`
returns `None` without raising) and resized; there is no failure path. -/
def initTemplates (screen_width screen_height : ℕ)
    (original_day original_night : Option (ℕ × ℕ)) :
    Option ResizeSpec × Option ResizeSpec :=
  (_resize_template screen_width screen_height original_day,
   _resize_template screen_width screen_height original_night)

/-- Result tuple of `_find_dinosaur` (lines 189–224). -/
structure MatchResult where
  found : Bool
  max_val : ℚ
  top_left : ℕ × ℕ
  template_h : ℕ
  template_w : ℕ
deriving DecidableEq

/-- One iteration of `_find_dinosaur`'s template loop: skip a `None`
template, otherwise run the matcher `mt` (modelling
`cv2.matchTemplate` + `cv2.minMaxLoc`) and keep the strictly better score
together with the winning template's shape. -/
def findStep (mt : Img → Img → ℚ × (ℕ × ℕ)) (frame_bgr : Img)
    (acc : ℚ × (ℕ × ℕ) × ℕ × ℕ) (template : Option Img) : ℚ × (ℕ × ℕ) × ℕ × ℕ :=
  match template with
  | none => acc
  | some tpl =>
    let r := mt frame_bgr tpl
    if acc.1 < r.1 then (r.1, r.2, tpl.length, (tpl.headD []).length) else acc

/-- `_find_dinosaur` (lines 189–224): try the night template then the day
template (skipping missing ones), keep the best score and its location and
shape; `found` iff the best score reaches `confidence_threshold`. -/
def _find_dinosaur (p : DinoParams) (mt : Img → Img → ℚ × (ℕ × ℕ))
    (template_night template_day : Option Img) (frame_bgr : Img) : MatchResult :=
  let a := findStep mt frame_bgr (findStep mt frame_bgr (0, (0, 0), 0, 0) template_night)
    template_day
  ⟨decide (p.confidence_threshold ≤ a.1), a.1, a.2.1, a.2.2.1, a.2.2.2⟩

/-- `_is_day_scene` (lines 226–245): sample the rows
`[max(y - template_h, 0), y)` over all columns; an empty region is night;
otherwise day iff the fraction of pixels equal to 255 strictly exceeds
`day_threshold`. -/
def _is_day_scene (p : DinoParams) (s : BotState) (frame_gray : Img) : Bool :=
  let y : ℤ := s.top_left.2
  let sky_y_start : ℤ := max (y - s.template_h) 0
  let sky_y_end : ℤ := y
  let sky_region := pySlice frame_gray sky_y_start sky_y_end
  if imgSize sky_region = 0 then false
  else decide (p.day_threshold < (countVal sky_region 255 : ℚ) / (imgSize sky_region : ℚ))

/-- `_threshold_obstacle_frames` (lines 247–286): enlarge the character's
vertical window to top `y - 0.5 h`, height `1.5 h`; slice the middle and
bottom thirds of that window over the columns
`[int(x + (scale_w - 1) w), int(x + scale_w w))`; binarize both bands
(fixed 180 threshold by day, Otsu by night). -/
def _threshold_obstacle_frames (s : BotState) (frame_gray : Img) (is_day : Bool)
    (scale_w : ℚ) : Img × Img :=
  let x : ℚ := s.top_left.1
  let y : ℚ := s.top_left.2
  let new_top_left : ℚ := y - 1/2 * (s.template_h : ℚ)
  let new_h : ℚ := 3/2 * (s.template_h : ℚ)
  let c1 := pyInt (x + (scale_w - 1) * (s.template_w : ℚ))
  let c2 := pyInt (x + scale_w * (s.template_w : ℚ))
  let middle_obstacle_frame :=
    slice2 frame_gray (pyInt (new_top_left + new_h / 3)) (pyInt (new_top_left + 2 * new_h / 3))
      c1 c2
  let bottom_obstacle_frame :=
    slice2 frame_gray (pyInt (new_top_left + 2 * new_h / 3)) (pyInt (new_top_left + new_h))
      c1 c2
  (binarize is_day middle_obstacle_frame, binarize is_day bottom_obstacle_frame)

/-- The per-frame body of `_compute_contrasts` (lines 288–305): 0.0 for an
empty frame, else the ratio of pixels equal to 255 to the total count. -/
def contrastOf (g : Img) : ℚ :=
  if imgSize g = 0 then 0 else (countVal g 255 : ℚ) / (imgSize g : ℚ)

/-- `_compute_contrasts` (lines 288–305) over a list of thresholded frames. -/
def _compute_contrasts (frames : List Img) : List ℚ := frames.map contrastOf

/-- `_get_dynamic_scale_w` (lines 319–335): clamp to `late_scale_w` once
`elapsed_time ≥ late_game_time`, else interpolate linearly from
`init_scale_w` to `late_scale_w`. -/
def _get_dynamic_scale_w (p : DinoParams) (elapsed_time : ℚ) : ℚ :=
  if p.late_game_time ≤ elapsed_time then p.late_scale_w
  else
    p.init_scale_w + elapsed_time / p.late_game_time * (p.late_scale_w - p.init_scale_w)

/-- The obstacle test of `play` (lines 381–386):
`obstacle_min_contrast < ratio < obstacle_max_contrast`, strict on both
sides. -/
def is_obstacle (p : DinoParams) (ratio : ℚ) : Bool :=
  decide (p.obstacle_min_contrast < ratio ∧ ratio < p.obstacle_max_contrast)

/-- The action-selection step of `play` (lines 388–407).  `elapsed_time` is
the tick's `time.perf_counter() - start_time` reading and `now` its later
`time.perf_counter()` reading.  Bottom obstacles take the first branch: in
the late game a jump pulse, a pause and a duck pulse; early a single jump
press.  Otherwise a middle obstacle holds the duck key for `duck_time`.
Either branch records `last_button_push = now`; with no obstacle nothing
happens. -/
def selectAction (p : DinoParams) (s : BotState) (elapsed_time now : ℚ)
    (is_obstacle_middle is_obstacle_bottom : Bool) : BotState × List Action :=
  if is_obstacle_bottom then
    if p.late_game_time ≤ elapsed_time then
      ({ s with last_button_push := now },
       [Action.keyDown Key.space, Action.keyUp Key.space,
        Action.sleep p.post_jump_duck_sleep,
        Action.keyDown Key.down, Action.keyUp Key.down])
    else
      ({ s with last_button_push := now }, [Action.press Key.space])
  else if is_obstacle_middle then
    ({ s with last_button_push := now },
     [Action.keyDown Key.down, Action.sleep p.duck_time, Action.keyUp Key.down])
  else (s, [])

/-- Steps 2–6 of a tracking tick of `play` (lines 364–407): classify the
scene, compute `scale_w` from the elapsed time, extract and binarize the
two bands, compute their contrasts, test both for obstacles and select the
action.  `t1` is the `perf_counter` reading used for `elapsed_time` (line
368) and `t2` the later reading bound to `now` (line 380). -/
def trackTickSel (p : DinoParams) (s : BotState) (frame_gray : Img) (t1 t2 : ℚ) :
    BotState × List Action :=
  let day_scene := _is_day_scene p s frame_gray
  let elapsed_time := t1 - s.start_time
  let scale_w := _get_dynamic_scale_w p elapsed_time
  let bands := _threshold_obstacle_frames s frame_gray day_scene scale_w
  let middle_contrast := contrastOf bands.1
  let bottom_contrast := contrastOf bands.2
  let is_obstacle_middle := is_obstacle p middle_contrast
  let is_obstacle_bottom := is_obstacle p bottom_contrast
  selectAction p s (t1 - s.start_time) t2 is_obstacle_middle is_obstacle_bottom

/-- A full tracking tick of `play` (lines 364–414): the action selection
above followed by the idle-reset check (lines 409–414): if
`now - last_button_push > idle_reset_time` then press jump, set
`start_time` to a fresh `perf_counter` reading `t3` (line 413) and
`last_button_push` to `now`. -/
def trackTick (p : DinoParams) (s : BotState) (frame_gray : Img) (t1 t2 t3 : ℚ) :
    BotState × List Action :=
  let r := trackTickSel p s frame_gray t1 t2
  if p.idle_reset_time < t2 - r.1.last_button_push then
    ({ r.1 with start_time := t3, last_button_push := t2 },
     r.2 ++ [Action.press Key.space])
  else r

/-- A searching tick of `play` (lines 353–362): run the localizer and
unconditionally store its location and shape; if found, press jump, set
`skip_init`, and take the clock readings `u1` (line 359, `last_button_push`)
and `u2` (line 360, `start_time`). -/
def searchTick (p : DinoParams) (mt : Img → Img → ℚ × (ℕ × ℕ))
    (template_night template_day : Option Img) (s : BotState) (frame_bgr : Img)
    (u1 u2 : ℚ) : BotState × List Action × List Event :=
  let m := _find_dinosaur p mt template_night template_day frame_bgr
  if m.found then
    ({ skip_init := true
       top_left := m.top_left
       template_h := m.template_h
       template_w := m.template_w
       last_button_push := u1
       start_time := u2 },
     [Action.press Key.space], [Event.localize])
  else
    ({ s with
       top_left := m.top_left
       template_h := m.template_h
       template_w := m.template_w }, [], [Event.localize])

/-- One iteration of `play`'s `while True` loop.  The searching branch runs
when `skip_initialize` is still false; the tracking branch performs scene
classification and obstacle evaluation.  `τ` enumerates the tick's
`time.perf_counter()` readings in program order. -/
def tick (p : DinoParams) (mt : Img → Img → ℚ × (ℕ × ℕ))
    (template_night template_day : Option Img) (s : BotState) (frame : Img)
    (τ : ℕ → ℚ) : BotState × List Action × List Event :=
  if s.skip_init = false then
    searchTick p mt template_night template_day s frame (τ 0) (τ 1)
  else
    let r := trackTick p s frame (τ 0) (τ 1) (τ 2)
    (r.1, r.2, [Event.classify, Event.evaluate])

/-- Iterating `play`'s loop over a list of captured frames (each with its
clock readings), collecting the perception events. -/
def runLoop (p : DinoParams) (mt : Img → Img → ℚ × (ℕ × ℕ))
    (template_night template_day : Option Img) (s : BotState)
    (inputs : List (Img × (ℕ → ℚ))) : BotState × List Event :=
  inputs.foldl
    (fun acc inp =>
      let r := tick p mt template_night template_day acc.1 inp.1 inp.2
      (r.1, acc.2 ++ r.2.2))
    (s, [])

/-- Modelled from the spec: Python's `round` (round half to even), the
rounding the claim about `scaled_for` prescribes with
`new_w = round(orig_w * resolution.w/reference.w)`. -/
def pyRound (q : ℚ) : ℤ :=
  if q - ⌊q⌋ < 1/2 then ⌊q⌋
  else if 1/2 < q - ⌊q⌋ then ⌊q⌋ + 1
  else if ⌊q⌋ % 2 = 0 then ⌊q⌋ else ⌊q⌋ + 1

/-- Modelled from the spec: "Template load failure (missing/corrupt image)
→ fatal at startup; the bot cannot run without at least one usable
template."  Startup as the claim describes it: `none` (fatal) when neither
template image loaded, otherwise the loaded pair. -/
def init_spec (original_day original_night : Option (ℕ × ℕ)) :
    Option (Option (ℕ × ℕ) × Option (ℕ × ℕ)) :=
  if original_day = none ∧ original_night = none then none
  else some (original_day, original_night)

/-- A concrete locked-on state used to instantiate theorems with
hypotheses: character at the origin with a degenerate template. -/
def sLock : BotState := ⟨true, (0, 0), 0, 0, 0, 0⟩

/-- C1: in the TRACKING state a detected bottom-band obstacle takes
priority over a middle-band one; with a bottom obstacle and
`elapsed ≥ late_game_time` the tick emits jump key-down, jump key-up,
`sleep post_jump_duck_sleep`, duck key-down, duck key-up; with a bottom
obstacle in the early game it emits a single jump press; with only a
middle obstacle it holds the duck key for `duck_time` and releases it;
in each of those cases `last_button_push` becomes the tick's `now`, and
with neither obstacle nothing is emitted and the state is unchanged. -/
theorem C1_action_priority (p : DinoParams) (s : BotState) (elapsed_time now mc bc : ℚ) :
    (is_obstacle p bc = true → p.late_game_time ≤ elapsed_time →
      selectAction p s elapsed_time now (is_obstacle p mc) (is_obstacle p bc)
        = ({ s with last_button_push := now },
           [Action.keyDown Key.space, Action.keyUp Key.space,
            Action.sleep p.post_jump_duck_sleep,
            Action.keyDown Key.down, Action.keyUp Key.down]))
  ∧ (is_obstacle p bc = true → elapsed_time < p.late_game_time →
      selectAction p s elapsed_time now (is_obstacle p mc) (is_obstacle p bc)
        = ({ s with last_button_push := now }, [Action.press Key.space]))
  ∧ (is_obstacle p bc = false → is_obstacle p mc = true →
      selectAction p s elapsed_time now (is_obstacle p mc) (is_obstacle p bc)
        = ({ s with last_button_push := now },
           [Action.keyDown Key.down, Action.sleep p.duck_time, Action.keyUp Key.down]))
  ∧ (is_obstacle p bc = false → is_obstacle p mc = false →
      selectAction p s elapsed_time now (is_obstacle p mc) (is_obstacle p bc) = (s, [])) := by
  refine ⟨fun h1 h2 => ?_, fun h1 h2 => ?_, fun h1 h2 => ?_, fun h1 h2 => ?_⟩
  · simp [selectAction, h1, h2]
  · simp [selectAction, h1, not_le.mpr h2]
  · simp [selectAction, h1, h2]
  · simp [selectAction, h1, h2]

/-- Witness for C1: a bottom-band contrast of 0.5 under default thresholds
at elapsed time 40 (≥ late_game_time = 30) yields the
jump-pulse/sleep/duck-pulse sequence. -/
theorem C1_witness :
    is_obstacle defaultParams (1/2) = true ∧
    selectAction defaultParams sLock 40 41 (is_obstacle defaultParams 0)
        (is_obstacle defaultParams (1/2))
      = ({ sLock with last_button_push := 41 },
         [Action.keyDown Key.space, Action.keyUp Key.space,
          Action.sleep defaultParams.post_jump_duck_sleep,
          Action.keyDown Key.down, Action.keyUp Key.down]) :=
  ⟨by with_unfolding_all decide,
   (C1_action_priority defaultParams sLock 40 41 0 (1/2)).1
     (by with_unfolding_all decide) (by with_unfolding_all decide)⟩

/-- C2: `_get_dynamic_scale_w` is monotonically non-decreasing in elapsed
time, equals `init_scale_w` at 0, equals `late_scale_w` from
`late_game_time` on, is the exact linear interpolation in between, and at
the defaults gives 2.75 for elapsed time 15. -/
theorem C2_dynamic_scale (p : DinoParams) (hL : 0 < p.late_game_time)
    (hscale : p.init_scale_w ≤ p.late_scale_w) :
    (∀ t1 t2 : ℚ, 0 ≤ t1 → t1 ≤ t2 →
      _get_dynamic_scale_w p t1 ≤ _get_dynamic_scale_w p t2)
  ∧ _get_dynamic_scale_w p 0 = p.init_scale_w
  ∧ (∀ t : ℚ, p.late_game_time ≤ t → _get_dynamic_scale_w p t = p.late_scale_w)
  ∧ (∀ t : ℚ, 0 ≤ t → t < p.late_game_time →
      _get_dynamic_scale_w p t
        = p.init_scale_w + t / p.late_game_time * (p.late_scale_w - p.init_scale_w))
  ∧ _get_dynamic_scale_w defaultParams 15 = 11/4 := by
  have hd : (0 : ℚ) ≤ p.late_scale_w - p.init_scale_w := sub_nonneg.mpr hscale
  refine ⟨?_, ?_, ?_, ?_, ?_⟩
  · intro t1 t2 h0 h12
    by_cases hc2 : p.late_game_time ≤ t2
    · by_cases hc1 : p.late_game_time ≤ t1
      · simp [_get_dynamic_scale_w, hc1, hc2]
      · simp only [_get_dynamic_scale_w, hc1, hc2, if_true, if_false]
        have ht1 : t1 / p.late_game_time ≤ 1 :=
          (div_le_one hL).mpr (le_of_lt (not_le.mp hc1))
        have := mul_le_of_le_one_left hd ht1
        linarith
    · have hc1 : ¬ p.late_game_time ≤ t1 := fun h => hc2 (le_trans h h12)
      simp only [_get_dynamic_scale_w, hc1, hc2, if_false]
      have h12L : t1 / p.late_game_time ≤ t2 / p.late_game_time :=
        (div_le_div_iff_of_pos_right hL).mpr h12
      have := mul_le_mul_of_nonneg_right h12L hd
      linarith
  · have h0 : ¬ p.late_game_time ≤ (0 : ℚ) := not_le.mpr hL
    simp [_get_dynamic_scale_w, h0]
  · intro t ht
    simp [_get_dynamic_scale_w, ht]
  · intro t _ ht
    simp [_get_dynamic_scale_w, not_le.mpr ht]
  · with_unfolding_all decide

/-- Witness for C2: the default parameters satisfy the hypotheses and the
interpolation evaluates as claimed at 0 and 15. -/
theorem C2_witness :
    (0 : ℚ) < defaultParams.late_game_time
  ∧ defaultParams.init_scale_w ≤ defaultParams.late_scale_w
  ∧ _get_dynamic_scale_w defaultParams 0 = defaultParams.init_scale_w
  ∧ _get_dynamic_scale_w defaultParams 15 = 11/4 :=
  ⟨by with_unfolding_all decide, by with_unfolding_all decide,
   (C2_dynamic_scale defaultParams (by with_unfolding_all decide)
     (by with_unfolding_all decide)).2.1,
   (C2_dynamic_scale defaultParams (by with_unfolding_all decide)
     (by with_unfolding_all decide)).2.2.2.2⟩

/-- C3: with `0 ≤ obstacle_min_contrast` and `obstacle_max_contrast ≤ 1`,
the obstacle test holds exactly for `obstacle_min_contrast < r <
obstacle_max_contrast`, strict on both sides, and in particular fails for
the ratios 0 and 1. -/
theorem C3_is_obstacle (p : DinoParams) (hmin : 0 ≤ p.obstacle_min_contrast)
    (hmax : p.obstacle_max_contrast ≤ 1) :
    (∀ r : ℚ, 0 ≤ r → r ≤ 1 →
      (is_obstacle p r = true ↔
        p.obstacle_min_contrast < r ∧ r < p.obstacle_max_contrast))
  ∧ is_obstacle p 0 = false
  ∧ is_obstacle p 1 = false := by
  refine ⟨fun r _ _ => ?_, ?_, ?_⟩
  · simp [is_obstacle]
  · apply decide_eq_false
    rintro ⟨h1, -⟩
    exact absurd h1 (not_lt.mpr hmin)
  · apply decide_eq_false
    rintro ⟨-, h2⟩
    exact absurd h2 (not_lt.mpr hmax)

/-- Witness for C3: the default thresholds (0.1, 0.9) classify ratio 0.5 as
an obstacle and ratio 0 as none. -/
theorem C3_witness :
    (0 : ℚ) ≤ defaultParams.obstacle_min_contrast
  ∧ defaultParams.obstacle_max_contrast ≤ 1
  ∧ is_obstacle defaultParams (1/2) = true
  ∧ is_obstacle defaultParams 0 = false :=
  ⟨by with_unfolding_all decide, by with_unfolding_all decide,
   ((C3_is_obstacle defaultParams (by with_unfolding_all decide)
       (by with_unfolding_all decide)).1 (1/2) (by with_unfolding_all decide)
       (by with_unfolding_all decide)).mpr
     ⟨by with_unfolding_all decide, by with_unfolding_all decide⟩,
   (C3_is_obstacle defaultParams (by with_unfolding_all decide)
     (by with_unfolding_all decide)).2.1⟩

theorem countVal_le_imgSize (g : Img) (v : ℕ) : countVal g v ≤ imgSize g := by
  unfold countVal imgSize
  induction g with
  | nil => simp
  | cons row rest ih =>
    simp only [List.map_cons, List.sum_cons]
    exact Nat.add_le_add (List.length_filter_le _ _) ih

theorem contrastOf_nonneg (g : Img) : 0 ≤ contrastOf g := by
  unfold contrastOf
  split
  · exact le_refl 0
  · positivity

theorem contrastOf_le_one (g : Img) : contrastOf g ≤ 1 := by
  unfold contrastOf
  split
  · norm_num
  · rename_i h
    rw [div_le_one (by exact_mod_cast Nat.pos_of_ne_zero h)]
    exact_mod_cast countVal_le_imgSize g 255

theorem contrastOf_empty {g : Img} (h : imgSize g = 0) : contrastOf g = 0 := by
  simp [contrastOf, h]

theorem pySlice_length_le (l : List α) (i j : ℤ) : (pySlice l i j).length ≤ l.length := by
  simp only [pySlice, List.length_drop, List.length_take]
  omega

theorem slice2_length_le (g : Img) (r1 r2 c1 c2 : ℤ) :
    (slice2 g r1 r2 c1 c2).length ≤ g.length := by
  simpa [slice2] using pySlice_length_le g r1 r2

theorem binarize_length (is_day : Bool) (band : Img) :
    (binarize is_day band).length = band.length := by
  unfold binarize cv2_threshold_binary
  split <;> simp

/-- C4: band extraction and contrast computation are total for every frame,
character box, mode and scale: slice bounds are clipped by the (numpy)
slice semantics, both contrasts are rationals in `[0, 1]`, an empty band
yields contrast exactly 0, and each band has no more rows than the frame. -/
theorem C4_extraction_safety (s : BotState) (g : Img) (is_day : Bool) (scale_w : ℚ) :
    (0 ≤ contrastOf (_threshold_obstacle_frames s g is_day scale_w).1
      ∧ contrastOf (_threshold_obstacle_frames s g is_day scale_w).1 ≤ 1
      ∧ (imgSize (_threshold_obstacle_frames s g is_day scale_w).1 = 0 →
          contrastOf (_threshold_obstacle_frames s g is_day scale_w).1 = 0))
  ∧ (0 ≤ contrastOf (_threshold_obstacle_frames s g is_day scale_w).2
      ∧ contrastOf (_threshold_obstacle_frames s g is_day scale_w).2 ≤ 1
      ∧ (imgSize (_threshold_obstacle_frames s g is_day scale_w).2 = 0 →
          contrastOf (_threshold_obstacle_frames s g is_day scale_w).2 = 0))
  ∧ _compute_contrasts
      [(_threshold_obstacle_frames s g is_day scale_w).1,
       (_threshold_obstacle_frames s g is_day scale_w).2]
      = [contrastOf (_threshold_obstacle_frames s g is_day scale_w).1,
         contrastOf (_threshold_obstacle_frames s g is_day scale_w).2]
  ∧ (_threshold_obstacle_frames s g is_day scale_w).1.length ≤ g.length
  ∧ (_threshold_obstacle_frames s g is_day scale_w).2.length ≤ g.length := by
  refine ⟨⟨contrastOf_nonneg _, contrastOf_le_one _, fun h => contrastOf_empty h⟩,
    ⟨contrastOf_nonneg _, contrastOf_le_one _, fun h => contrastOf_empty h⟩, rfl, ?_, ?_⟩
  · show (binarize _ _).length ≤ _
    rw [binarize_length]
    exact slice2_length_le _ _ _ _ _
  · show (binarize _ _).length ≤ _
    rw [binarize_length]
    exact slice2_length_le _ _ _ _ _

/-- Witness for C4: with a degenerate character box both bands are empty
and their contrast evaluates to exactly 0. -/
theorem C4_witness :
    imgSize (_threshold_obstacle_frames sLock [[0]] true 4).1 = 0
  ∧ contrastOf (_threshold_obstacle_frames sLock [[0]] true 4).1 = 0 :=
  ⟨by with_unfolding_all decide,
   (C4_extraction_safety sLock [[0]] true 4).1.2.2 (by with_unfolding_all decide)⟩

theorem pyInt_of_nonneg {q : ℚ} (h : 0 ≤ q) : pyInt q = ⌊q⌋ :=
  if_neg (not_lt.mpr h)

theorem pyInt_natCast (n : ℕ) : pyInt (n : ℚ) = n := by
  rw [pyInt_of_nonneg (by positivity), Int.floor_natCast]

theorem pyInt_nat_add_half (y h : ℕ) :
    pyInt ((y : ℚ) + (h : ℚ) / 2) = ((y + h / 2 : ℕ) : ℤ) := by
  rw [pyInt_of_nonneg (by positivity)]
  rw [show ((y : ℚ) + (h : ℚ) / 2) = (((y : ℤ) : ℚ) + (h : ℚ) / 2) from by push_cast; ring]
  rw [Int.floor_int_add]
  rw [show ((h : ℚ) / 2) = ((h : ℚ) / ((2 : ℕ) : ℚ)) from by norm_num]
  rw [Rat.floor_natCast_div_natCast]
  push_cast [Int.ofNat_div]
  ring

/-- C7: the extractor's vertical window has top `y - 0.5 h` and height
`1.5 h`; the code's truncated third boundaries land exactly on the pixel
rows `y`, `y + h / 2` and `y + h`, so the middle band is the (truncated)
middle third and the bottom band the final third; both bands span the
columns `[int(x + (scale_w - 1) w), int(x + scale_w w))`; day bands are
binarized at the fixed threshold 180, night bands with Otsu's automatic
threshold. -/
theorem C7_band_geometry (s : BotState) (g : Img) (is_day : Bool) (scale_w : ℚ) :
    _threshold_obstacle_frames s g is_day scale_w
      = (binarize is_day
          (slice2 g (s.top_left.2 : ℤ) ((s.top_left.2 + s.template_h / 2 : ℕ) : ℤ)
            (pyInt ((s.top_left.1 : ℚ) + (scale_w - 1) * (s.template_w : ℚ)))
            (pyInt ((s.top_left.1 : ℚ) + scale_w * (s.template_w : ℚ)))),
         binarize is_day
          (slice2 g ((s.top_left.2 + s.template_h / 2 : ℕ) : ℤ)
            ((s.top_left.2 + s.template_h : ℕ) : ℤ)
            (pyInt ((s.top_left.1 : ℚ) + (scale_w - 1) * (s.template_w : ℚ)))
            (pyInt ((s.top_left.1 : ℚ) + scale_w * (s.template_w : ℚ)))))
  ∧ pyInt ((s.top_left.2 : ℚ) - 1/2 * (s.template_h : ℚ)
        + (3/2 * (s.template_h : ℚ)) / 3) = (s.top_left.2 : ℤ)
  ∧ pyInt ((s.top_left.2 : ℚ) - 1/2 * (s.template_h : ℚ)
        + 2 * (3/2 * (s.template_h : ℚ)) / 3)
      = ((s.top_left.2 + s.template_h / 2 : ℕ) : ℤ)
  ∧ pyInt ((s.top_left.2 : ℚ) - 1/2 * (s.template_h : ℚ) + 3/2 * (s.template_h : ℚ))
      = ((s.top_left.2 + s.template_h : ℕ) : ℤ)
  ∧ (∀ band : Img, binarize true band = cv2_threshold_binary 180 band)
  ∧ (∀ band : Img, binarize false band = cv2_threshold_binary (otsu_threshold band) band) := by
  have h1 : pyInt ((s.top_left.2 : ℚ) - 1/2 * (s.template_h : ℚ)
      + (3/2 * (s.template_h : ℚ)) / 3) = (s.top_left.2 : ℤ) := by
    rw [show ((s.top_left.2 : ℚ) - 1/2 * (s.template_h : ℚ)
        + (3/2 * (s.template_h : ℚ)) / 3) = ((s.top_left.2 : ℕ) : ℚ) from by ring]
    exact pyInt_natCast _
  have h2 : pyInt ((s.top_left.2 : ℚ) - 1/2 * (s.template_h : ℚ)
      + 2 * (3/2 * (s.template_h : ℚ)) / 3)
      = ((s.top_left.2 + s.template_h / 2 : ℕ) : ℤ) := by
    rw [show ((s.top_left.2 : ℚ) - 1/2 * (s.template_h : ℚ)
        + 2 * (3/2 * (s.template_h : ℚ)) / 3)
        = ((s.top_left.2 : ℚ) + (s.template_h : ℚ) / 2) from by ring]
    exact pyInt_nat_add_half _ _
  have h3 : pyInt ((s.top_left.2 : ℚ) - 1/2 * (s.template_h : ℚ)
      + 3/2 * (s.template_h : ℚ)) = ((s.top_left.2 + s.template_h : ℕ) : ℤ) := by
    rw [show ((s.top_left.2 : ℚ) - 1/2 * (s.template_h : ℚ) + 3/2 * (s.template_h : ℚ))
        = (((s.top_left.2 + s.template_h : ℕ) : ℕ) : ℚ) from by push_cast; ring]
    exact pyInt_natCast _
  refine ⟨?_, h1, h2, h3, fun band => rfl, fun band => rfl⟩
  simp only [_threshold_obstacle_frames]
  rw [h1, h2, h3]

/-- C8: the scene classifier samples the rows `[max(y - h, 0), y)` over all
columns, classifies an empty region as night, and otherwise is day exactly
when the fraction of pixels equal to 255 strictly exceeds `day_threshold`. -/
theorem C8_day_scene (p : DinoParams) (s : BotState) (g : Img) :
    (_is_day_scene p s g = true ↔
      imgSize (pySlice g (max ((s.top_left.2 : ℤ) - (s.template_h : ℤ)) 0)
          (s.top_left.2 : ℤ)) ≠ 0
      ∧ p.day_threshold <
          (countVal (pySlice g (max ((s.top_left.2 : ℤ) - (s.template_h : ℤ)) 0)
              (s.top_left.2 : ℤ)) 255 : ℚ)
            / (imgSize (pySlice g (max ((s.top_left.2 : ℤ) - (s.template_h : ℤ)) 0)
              (s.top_left.2 : ℤ)) : ℚ))
  ∧ (imgSize (pySlice g (max ((s.top_left.2 : ℤ) - (s.template_h : ℤ)) 0)
        (s.top_left.2 : ℤ)) = 0 → _is_day_scene p s g = false) := by
  constructor
  · simp only [_is_day_scene]
    split
    · rename_i h
      simp [h]
    · rename_i h
      simp [h]
  · intro h
    simp [_is_day_scene, h]

/-- Scenario A frame: a 2×10 frame whose first row (the sky strip above the
character) has 7 of 10 pixels at full brightness. -/
def gA : Img := [[255, 255, 255, 255, 255, 255, 255, 0, 0, 0],
                 [1, 2, 3, 4, 5, 6, 7, 8, 9, 10]]

/-- Scenario A state: character found at `(0, 1)` with a 1×1 template. -/
def sA : BotState := ⟨true, (0, 1), 1, 1, 0, 0⟩

/-- Witness for C8 (scenario A): white fraction 0.7 with day_threshold 0.5
classifies the scene as day. -/
theorem C8_witness : _is_day_scene defaultParams sA gA = true :=
  (C8_day_scene defaultParams sA gA).1.mpr
    ⟨by with_unfolding_all decide, by with_unfolding_all decide⟩

theorem selA_skip_init (p : DinoParams) (s : BotState) (e n : ℚ) (m b : Bool) :
    (selectAction p s e n m b).1.skip_init = s.skip_init := by
  unfold selectAction
  repeat' split
  all_goals rfl

theorem selA_act_lbp (p : DinoParams) (s : BotState) (e n : ℚ) (m b : Bool)
    (h : b = true ∨ m = true) : (selectAction p s e n m b).1.last_button_push = n := by
  rcases h with h | h
  · subst h
    by_cases hle : p.late_game_time ≤ e <;> simp [selectAction, hle]
  · subst h
    cases b with
    | false => simp [selectAction]
    | true => by_cases hle : p.late_game_time ≤ e <;> simp [selectAction, hle]

theorem trackTickSel_skip_init (p : DinoParams) (s : BotState) (g : Img) (t1 t2 : ℚ) :
    (trackTickSel p s g t1 t2).1.skip_init = s.skip_init :=
  selA_skip_init p s _ t2 _ _

theorem trackTick_skip_init (p : DinoParams) (s : BotState) (g : Img) (t1 t2 t3 : ℚ) :
    (trackTick p s g t1 t2 t3).1.skip_init = s.skip_init := by
  simp only [trackTick]
  split
  · exact trackTickSel_skip_init p s g t1 t2
  · exact trackTickSel_skip_init p s g t1 t2

/-- The idle-reset conclusion for an action-selection result that did not
act, under a nonnegative `idle_reset_time`. -/
theorem idle_fire_of_select (p : DinoParams) (s : BotState) (e n t3 : ℚ) (m b : Bool)
    (hirt : 0 ≤ p.idle_reset_time)
    (hidle : p.idle_reset_time < n - (selectAction p s e n m b).1.last_button_push) :
    (if p.idle_reset_time < n - (selectAction p s e n m b).1.last_button_push then
      ({ (selectAction p s e n m b).1 with start_time := t3, last_button_push := n },
       (selectAction p s e n m b).2 ++ [Action.press Key.space])
    else selectAction p s e n m b)
      = ({ s with start_time := t3, last_button_push := n }, [Action.press Key.space]) := by
  by_cases hact : b = true ∨ m = true
  · exfalso
    rw [selA_act_lbp p s e n m b hact, sub_self] at hidle
    linarith
  · push_neg at hact
    have hb : b = false := by
      cases b with
      | false => rfl
      | true => exact absurd rfl hact.1
    have hm : m = false := by
      cases m with
      | false => rfl
      | true => exact absurd rfl hact.2
    subst hb hm
    rw [if_pos hidle]
    rfl

/-- C5: on a tracking tick whose end satisfies
`now - last_button_push > idle_reset_time` (with a nonnegative
`idle_reset_time`, and the two clock readings of the reset coinciding),
exactly one jump press is emitted and both `start_time` and
`last_button_push` are reset to the tick's `now`, while the cached
character position and template size are unchanged. -/
theorem C5_idle_reset (p : DinoParams) (s : BotState) (g : Img) (t1 t2 t3 : ℚ)
    (hirt : 0 ≤ p.idle_reset_time) (ht : t3 = t2)
    (hidle : p.idle_reset_time < t2 - (trackTickSel p s g t1 t2).1.last_button_push) :
    trackTick p s g t1 t2 t3
      = ({ s with start_time := t2, last_button_push := t2 },
         [Action.press Key.space]) := by
  rw [ht]
  exact idle_fire_of_select p s (t1 - s.start_time) t2 t2 _ _ hirt hidle

/-- Witness for C5: with no obstacle in a blank frame and a last action 10
seconds old (idle_reset_time = 7), the tick emits exactly one jump press
and resets the run clock. -/
theorem C5_witness :
    (0 : ℚ) ≤ defaultParams.idle_reset_time
  ∧ defaultParams.idle_reset_time
      < 10 - (trackTickSel defaultParams sLock [[0]] 10 10).1.last_button_push
  ∧ trackTick defaultParams sLock [[0]] 10 10 10
      = ({ sLock with start_time := 10, last_button_push := 10 },
         [Action.press Key.space]) :=
  ⟨by with_unfolding_all decide, by with_unfolding_all decide,
   C5_idle_reset defaultParams sLock [[0]] 10 10 10 (by with_unfolding_all decide) rfl
     (by with_unfolding_all decide)⟩

/-- Folding the loop from a locked-on state keeps the lock and produces no
localization event. -/
theorem runLoop_locked_aux (p : DinoParams) (mt : Img → Img → ℚ × (ℕ × ℕ))
    (tn td : Option Img) (inputs : List (Img × (ℕ → ℚ))) :
    ∀ (s : BotState) (acc : List Event), s.skip_init = true →
      Event.localize ∉ acc →
      (inputs.foldl
        (fun a inp =>
          let r := tick p mt tn td a.1 inp.1 inp.2
          (r.1, a.2 ++ r.2.2)) (s, acc)).1.skip_init = true
      ∧ Event.localize ∉
        (inputs.foldl
          (fun a inp =>
            let r := tick p mt tn td a.1 inp.1 inp.2
            (r.1, a.2 ++ r.2.2)) (s, acc)).2 := by
  induction inputs with
  | nil => intro s acc hs hacc; exact ⟨hs, hacc⟩
  | cons hd tl ih =>
    intro s acc hs hacc
    simp only [List.foldl_cons]
    have hcond : ¬ (s.skip_init = false) := by simp [hs]
    have htick1 : (tick p mt tn td s hd.1 hd.2).1.skip_init = true := by
      simp only [tick, if_neg hcond]
      rw [trackTick_skip_init]
      exact hs
    have htick2 : (tick p mt tn td s hd.1 hd.2).2.2 = [Event.classify, Event.evaluate] := by
      simp only [tick, if_neg hcond]
    refine ih _ _ htick1 ?_
    rw [htick2]
    simp only [List.mem_append, List.mem_cons, List.not_mem_nil]
    rintro (h | h | h | h)
    · exact hacc h
    · exact Event.noConfusion h
    · exact Event.noConfusion h
    · exact h.elim

/-- C6: once the loop has locked on (`skip_initialize` set), it never
re-enters the searching state and never runs the localizer again for the
rest of the run; and a tick taken before the character is located runs
only the localizer — no scene classification and no obstacle evaluation. -/
theorem C6_single_localization (p : DinoParams) (mt : Img → Img → ℚ × (ℕ × ℕ))
    (tn td : Option Img) :
    (∀ (s : BotState) (inputs : List (Img × (ℕ → ℚ))), s.skip_init = true →
      (runLoop p mt tn td s inputs).1.skip_init = true
      ∧ Event.localize ∉ (runLoop p mt tn td s inputs).2)
  ∧ (∀ (s : BotState) (frame : Img) (τ : ℕ → ℚ), s.skip_init = false →
      (tick p mt tn td s frame τ).2.2 = [Event.localize]) := by
  constructor
  · intro s inputs hs
    exact runLoop_locked_aux p mt tn td inputs s [] hs (by simp)
  · intro s frame τ hs
    simp only [tick, if_pos hs, searchTick]
    split <;> rfl

/-- Witness for C6: a locked-on state stays locked over a run and its
event trace holds no localization. -/
theorem C6_witness :
    (runLoop defaultParams (fun _ _ => (1, (0, 0))) none none sLock
        [([[0]], fun _ => 10)]).1.skip_init = true
  ∧ Event.localize ∉
      (runLoop defaultParams (fun _ _ => (1, (0, 0))) none none sLock
        [([[0]], fun _ => 10)]).2 :=
  (C6_single_localization defaultParams (fun _ _ => (1, (0, 0))) none none).1 sLock
    [([[0]], fun _ => 10)] rfl

/-- C9 (amended): `_resize_template` computes
`new_w = trunc(orig_w * screen_w / 1920)` and
`new_h = trunc(orig_h * screen_h / 1080)` — truncation (`int(...)`), not
rounding — each clamped to a minimum of 1 pixel, and resizes with the
area-averaging algorithm (`cv2.INTER_AREA`); a missing template stays
missing. -/
theorem C9_resize_trunc (screen_width screen_height h w : ℕ) :
    _resize_template screen_width screen_height (some (h, w))
      = some ⟨max 1 (⌊(w : ℚ) * screen_width / 1920⌋).toNat,
              max 1 (⌊(h : ℚ) * screen_height / 1080⌋).toNat, Interp.area⟩
  ∧ _resize_template screen_width screen_height none = none := by
  constructor
  · have e1 : pyInt ((w : ℚ) * ((screen_width : ℚ) / 1920))
        = ⌊(w : ℚ) * screen_width / 1920⌋ := by
      rw [pyInt_of_nonneg (by positivity), mul_div_assoc]
    have e2 : pyInt ((h : ℚ) * ((screen_height : ℚ) / 1080))
        = ⌊(h : ℚ) * screen_height / 1080⌋ := by
      rw [pyInt_of_nonneg (by positivity), mul_div_assoc]
    simp only [_resize_template, e1, e2]
  · rfl

/-- Counterexample for C9: for a 1×1 template on a 2880×2160 screen the
code computes width `int(1.5) = 1`, while the claim's
`round(orig_w * screen_w / 1920) = round(1.5) = 2`. -/
theorem C9_counterexample :
    _resize_template 2880 2160 (some (1, 1)) = some ⟨1, 2, Interp.area⟩
  ∧ pyRound ((1 : ℚ) * 2880 / 1920) = 2 :=
  ⟨by with_unfolding_all decide, by with_unfolding_all decide⟩

/-- C10 (amended): template loading has no failure path — with both images
missing, startup still succeeds with no usable templates and the localizer
then never reports the character found (for a positive confidence
threshold), so the bot keeps searching forever; with exactly one template
missing, startup succeeds and localization skips the missing mode (the
slot the surviving template occupies is irrelevant). -/
theorem C10_degraded (p : DinoParams) (mt : Img → Img → ℚ × (ℕ × ℕ)) (frame : Img)
    (hconf : 0 < p.confidence_threshold) :
    _find_dinosaur p mt none none frame = ⟨false, 0, (0, 0), 0, 0⟩
  ∧ (∀ t : Img,
      _find_dinosaur p mt (some t) none frame = _find_dinosaur p mt none (some t) frame)
  ∧ initTemplates 1920 1080 none none = (none, none) := by
  refine ⟨?_, fun t => rfl, rfl⟩
  show (⟨decide (p.confidence_threshold ≤ 0), 0, (0, 0), 0, 0⟩ : MatchResult)
    = ⟨false, 0, (0, 0), 0, 0⟩
  rw [decide_eq_false (not_le.mpr hconf)]

/-- Counterexample for C10: the spec-modelled startup aborts with no
loaded template, but the code's startup completes with `(none, none)` and
its localizer then runs normally, merely never finding the character. -/
theorem C10_counterexample :
    init_spec none none = none
  ∧ initTemplates 1920 1080 none none = (none, none)
  ∧ _find_dinosaur defaultParams (fun _ _ => (9/10, (5, 5))) none none [[7]]
      = ⟨false, 0, (0, 0), 0, 0⟩ :=
  ⟨rfl, rfl, by with_unfolding_all decide⟩

/-- Witness for C10: with the default (positive) confidence threshold and
no templates, the localizer reports not-found. -/
theorem C10_witness :
    (0 : ℚ) < defaultParams.confidence_threshold
  ∧ _find_dinosaur defaultParams (fun _ _ => (1, (3, 4))) none none [[0]]
      = ⟨false, 0, (0, 0), 0, 0⟩ :=
  ⟨by with_unfolding_all decide,
   (C10_degraded defaultParams (fun _ _ => (1, (3, 4))) [[0]]
     (by with_unfolding_all decide)).1⟩

end Dino
